import Mathlib

/-!
Verification development for the Gummy WebSocket streaming client
(`test/test_gummy_websocket.py`).  The definitions below are a shallow
embedding of the client: control-message construction (`send_run_task`,
`send_finish_task`), audio streaming (`send_audio_data`, both the WAV and
the raw-PCM path), the outbound message log of the file-driven session
(`test_with_audio_file`), and the receive loop (`receive_messages` with
`_handle_result`).  Bytes are modelled as `List Nat`; JSON values as the
inductive `Json`; the nondeterministic uuid generated at construction is
passed in explicitly.
-/

/-- A JSON value, used to model the Python dict literals the client sends
as text frames. -/
inductive Json where
  | null : Json
  | bool (b : Bool) : Json
  | num (n : Int) : Json
  | str (s : String) : Json
  | arr (elems : List Json) : Json
  | obj (fields : List (String × Json)) : Json

/-- First-match lookup of a key in an object field list (Python dict access
for the literal dicts built by the client, whose keys are distinct). -/
def lookupField : List (String × Json) → String → Option Json
  | [], _ => none
  | (k, v) :: rest, key => if k = key then some v else lookupField rest key

/-- Field access on an object; `none` on non-objects or missing keys. -/
def Json.getField : Json → String → Option Json
  | .obj fields, key => lookupField fields key
  | _, _ => none

/-- Nested field access along a path of keys. -/
def Json.getPath : Json → List String → Option Json
  | j, [] => some j
  | j, k :: ks =>
    match j.getField k with
    | some v => v.getPath ks
    | none => none

/-- Parameters of `send_run_task`, with the Python default arguments. -/
structure RunTaskParams where
  target_lang : String := "en"
  source_lang : String := "auto"
  sample_rate : Int := 16000
  format : String := "pcm"
  max_end_silence : Int := 5000
  enable_inverse_text_normalization : Bool := true

/-- The client object: `__init__` stores the api key, the fixed endpoint
url, and a fresh uuid as `task_id`.  The uuid (drawn by `uuid.uuid4()`) is
passed in explicitly. -/
structure GummyWebSocketClient where
  api_key : String
  url : String
  task_id : String

/-- `GummyWebSocketClient.__init__`. -/
def GummyWebSocketClient.init (apiKey taskUuid : String) : GummyWebSocketClient :=
  { api_key := apiKey
    url := "wss://dashscope.aliyuncs.com/api-ws/v1/inference"
    task_id := taskUuid }

/-- The `run-task` control message built by `send_run_task` (the dict
literal at lines 63-88 of the source). -/
def send_run_task_message (taskId : String) (p : RunTaskParams) : Json :=
  .obj [
    ("header", .obj [
      ("task_id", .str taskId),
      ("action", .str "run-task"),
      ("streaming", .str "duplex")]),
    ("payload", .obj [
      ("task_group", .str "audio"),
      ("task", .str "asr"),
      ("function", .str "recognition"),
      ("model", .str "gummy-realtime-v1"),
      ("input", .obj [
        ("format", .str p.format),
        ("sample_rate", .num p.sample_rate),
        ("audio_type", .str "sentence"),
        ("translation", .obj [
          ("target_lang", .str p.target_lang),
          ("source_lang", .str p.source_lang)])]),
      ("parameters", .obj [
        ("max_end_silence", .num p.max_end_silence),
        ("enable_inverse_text_normalization", .bool p.enable_inverse_text_normalization)])])]

/-- The `finish-task` control message built by `send_finish_task` (lines
183-192 of the source). -/
def send_finish_task_message (taskId : String) : Json :=
  .obj [
    ("header", .obj [
      ("task_id", .str taskId),
      ("action", .str "finish-task"),
      ("streaming", .str "duplex")]),
    ("payload", .obj [
      ("input", .obj [])])]

/-- An audio file as `send_audio_data` sees it: either a WAV file with its
header parameters and PCM payload bytes, or a raw PCM file.  A WAV file is
assumed well formed, so its frame count is `data.length / bytesPerFrame`. -/
inductive AudioFile where
  | wav (channels sample_width framerate : Nat) (data : List Nat) : AudioFile
  | pcm (data : List Nat) : AudioFile

/-- Chunking loop: repeatedly take `s` bytes until the source is empty,
with fuel (one unit per read) so the definition is structural and
kernel-evaluable.  `fuel ≥ l.length` suffices when `s ≥ 1`. -/
def chunkGo (s : Nat) : Nat → List Nat → List (List Nat)
  | _, [] => []
  | 0, _ :: _ => []
  | fuel + 1, a :: l => (a :: l).take s :: chunkGo s fuel ((a :: l).drop s)

/-- Split a byte list into successive chunks of `s` bytes (the last chunk
may be shorter).  With `s = 0` the source loop reads an empty buffer first
and breaks at once, sending nothing. -/
def chunkList (s : Nat) (l : List Nat) : List (List Nat) :=
  if s = 0 then [] else chunkGo s l.length l

/-- Errors raised by `send_audio_data` before any frame is transmitted:
`FileNotFoundError` at line 107, and the `ValueError` for the 60-second
duration ceiling at lines 128 and 159. -/
inductive AudioError where
  | fileNotFound : AudioError
  | durationExceeded : AudioError
deriving DecidableEq

/-- Result of `send_audio_data`: the binary frames written to the
websocket, in order, and the error that aborted the call, if any.  In the
source both checks precede the send loop, so an error means no frame was
written. -/
structure SendResult where
  frames : List (List Nat)
  error : Option AudioError
deriving DecidableEq

/-- `send_audio_data(audio_file_path, chunk_size)` against a filesystem
`fs` mapping paths to files.  WAV path: duration check
`total_frames / framerate > 60` (rendered as `60 * framerate <
total_frames`, exact for `framerate > 0`), then reads
`chunk_size // (sample_width * channels)` frames — that many
`sample_width * channels`-byte frames of bytes — per send.  Raw-PCM path:
duration check assumes 16 kHz, 16-bit mono (`file_size / (16000 * 2) >
60`), then reads `chunk_size` bytes per send. -/
def send_audio_data (fs : String → Option AudioFile) (path : String)
    (chunk_size : Nat) : SendResult :=
  match fs path with
  | none => ⟨[], some .fileNotFound⟩
  | some (.wav channels sample_width framerate data) =>
      let bpf := sample_width * channels
      let total_frames := data.length / bpf
      if 60 * framerate < total_frames then ⟨[], some .durationExceeded⟩
      else ⟨chunkList ((chunk_size / bpf) * bpf) data, none⟩
  | some (.pcm data) =>
      if 60 * (16000 * 2) < data.length then ⟨[], some .durationExceeded⟩
      else ⟨chunkList chunk_size data, none⟩

/-- An outbound websocket message: a JSON text frame or a binary audio
frame. -/
inductive OutMsg where
  | control (j : Json) : OutMsg
  | audio (bytes : List Nat) : OutMsg

/-- The ordered outbound message log of `test_with_audio_file`: run-task,
then the audio frames; the finish-task message follows only when
`send_audio_data` did not raise (an exception skips straight to the
`except` block). -/
def test_with_audio_file_log (c : GummyWebSocketClient) (p : RunTaskParams)
    (fs : String → Option AudioFile) (path : String) (chunk_size : Nat) :
    List OutMsg :=
  match send_audio_data fs path chunk_size with
  | ⟨frames, some _⟩ =>
      OutMsg.control (send_run_task_message c.task_id p) :: frames.map OutMsg.audio
  | ⟨frames, none⟩ =>
      OutMsg.control (send_run_task_message c.task_id p) ::
        (frames.map OutMsg.audio ++ [OutMsg.control (send_finish_task_message c.task_id)])

/-- The `header.action` string of a control message, `none` for audio
frames. -/
def OutMsg.action : OutMsg → Option Json
  | .control j => j.getPath ["header", "action"]
  | .audio _ => none

/-- Is this outbound message the run-task control message? -/
def OutMsg.isRunTask (m : OutMsg) : Bool :=
  match m.action with
  | some (.str s) => s = "run-task"
  | _ => false

/-- Is this outbound message the finish-task control message? -/
def OutMsg.isFinishTask (m : OutMsg) : Bool :=
  match m.action with
  | some (.str s) => s = "finish-task"
  | _ => false

/-- Is this outbound message a binary audio frame? -/
def OutMsg.isAudio : OutMsg → Bool
  | .control _ => false
  | .audio _ => true

/-- A transcription segment of a `result-generated` payload, with the
fields `_handle_result` reads (defaults already applied). -/
structure SegmentResult where
  text : String
  sentence_end : Bool
  begin_time : Nat
  end_time : Nat
deriving DecidableEq

/-- One entry of the `translations` list of a `result-generated`
payload. -/
structure TranslationItem where
  lang : String
  text : String
  sentence_end : Bool
  begin_time : Nat
  end_time : Nat
deriving DecidableEq

/-- The `payload.output` of a `result-generated` event: an optional
transcription (`none` models a missing or empty dict, which the
`if transcription:` truthiness test skips) and a list of translations. -/
structure ResultPayload where
  transcription : Option SegmentResult
  translations : List TranslationItem
deriving DecidableEq

/-- A decoded inbound event, discriminated on `header.event` as the
receive loop does; `otherEvent` covers decodable messages whose event tag
matches no branch (the loop silently continues on them). -/
inductive InEvent where
  | taskStarted : InEvent
  | resultGenerated (p : ResultPayload) : InEvent
  | taskFinished : InEvent
  | taskFailed (error_code error_message : String) : InEvent
  | otherEvent (name : String) : InEvent
deriving DecidableEq

/-- What the client pushes to the result sink (here: prints) for one
recognition or translation result. -/
inductive SinkItem where
  | recognition (text : String) (sentence_end : Bool) (begin_time end_time : Nat) : SinkItem
  | translation (lang text : String) (sentence_end : Bool) (begin_time end_time : Nat) : SinkItem
deriving DecidableEq

/-- `_handle_result`: emit the transcription (when the dict is non-empty)
followed by every translation entry, in list order. -/
def handle_result (p : ResultPayload) : List SinkItem :=
  (match p.transcription with
   | some t => [SinkItem.recognition t.text t.sentence_end t.begin_time t.end_time]
   | none => []) ++
  p.translations.map
    (fun t => SinkItem.translation t.lang t.text t.sentence_end t.begin_time t.end_time)

/-- How the inbound stream ends when the loop has not already broken on a
terminal event: the iterator is exhausted by a clean close, or the
`websockets` transport raises `ConnectionClosed` (abnormal closure), which
the `except` clause at the end of `receive_messages` catches. -/
inductive CloseMode where
  | clean : CloseMode
  | aborted : CloseMode
deriving DecidableEq

/-- The terminal outcome of one run of the receive loop. -/
inductive RecvOutcome where
  | finished : RecvOutcome
  | failed (error_code error_message : String) : RecvOutcome
  | streamEnded : RecvOutcome
  | connectionClosed : RecvOutcome
deriving DecidableEq

/-- Outcome of the receive loop when the message stream ends without a
terminal event. -/
def endOutcome : CloseMode → RecvOutcome
  | .clean => .streamEnded
  | .aborted => .connectionClosed

/-- `receive_messages`: fold over the inbound messages (a `none` entry is
a message `json.loads` failed on — logged and skipped), dispatching
`result-generated` payloads through `_handle_result`, breaking on
`task-finished` and `task-failed`, and falling through to `endOutcome`
when the stream ends first.  Returns the sink items in emission order and
the outcome. -/
def receive_messages (cl : CloseMode) :
    List (Option InEvent) → List SinkItem × RecvOutcome
  | [] => ([], endOutcome cl)
  | none :: rest => receive_messages cl rest
  | some e :: rest =>
    match e with
    | .taskStarted => receive_messages cl rest
    | .otherEvent _ => receive_messages cl rest
    | .resultGenerated p =>
        let r := receive_messages cl rest
        (handle_result p ++ r.1, r.2)
    | .taskFinished => ([], .finished)
    | .taskFailed c m => ([], .failed c m)

/-- Is this inbound entry a terminal event (`task-finished` or
`task-failed`)? -/
def isTerminal : Option InEvent → Bool
  | some .taskFinished => true
  | some (.taskFailed _ _) => true
  | _ => false

/-- No entry of the list is a terminal event. -/
def noTerminal (msgs : List (Option InEvent)) : Bool :=
  msgs.all (fun e => !(isTerminal e))

/-- The sink items the loop forwards for a given message list, ignoring
termination: every `result-generated` payload handed to `_handle_result`,
in arrival order. -/
def forwarded : List (Option InEvent) → List SinkItem
  | [] => []
  | some (.resultGenerated p) :: rest => handle_result p ++ forwarded rest
  | _ :: rest => forwarded rest

theorem receive_append (cl : CloseMode) (pre rest : List (Option InEvent))
    (h : noTerminal pre = true) :
    receive_messages cl (pre ++ rest) =
      (forwarded pre ++ (receive_messages cl rest).1,
        (receive_messages cl rest).2) := by
  induction pre with
  | nil => simp [forwarded]
  | cons e pre ih =>
    rw [noTerminal, List.all_cons] at h
    have he : isTerminal e = false := by
      cases hb : isTerminal e with
      | false => rfl
      | true => rw [hb] at h; simp at h
    have hpre : noTerminal pre = true := by
      cases hb : noTerminal pre with
      | true => rfl
      | false => rw [noTerminal] at hb; rw [hb] at h; simp at h
    cases e with
    | none => simpa [receive_messages, forwarded] using ih hpre
    | some ev =>
      cases ev with
      | taskStarted => simpa [receive_messages, forwarded] using ih hpre
      | otherEvent nm => simpa [receive_messages, forwarded] using ih hpre
      | resultGenerated p =>
        simp [receive_messages, forwarded, ih hpre]
      | taskFinished => simp [isTerminal] at he
      | taskFailed c m => simp [isTerminal] at he

theorem receive_noTerminal (cl : CloseMode) (msgs : List (Option InEvent))
    (h : noTerminal msgs = true) :
    receive_messages cl msgs = (forwarded msgs, endOutcome cl) := by
  have := receive_append cl msgs [] h
  simpa [receive_messages] using this

theorem chunkGo_flatten (s : Nat) (hs : s ≠ 0) :
    ∀ (fuel : Nat) (l : List Nat), l.length ≤ fuel →
      (chunkGo s fuel l).flatten = l := by
  intro fuel
  induction fuel with
  | zero =>
    intro l hl
    have : l = [] := List.eq_nil_of_length_eq_zero (Nat.le_zero.mp hl)
    subst this
    simp [chunkGo]
  | succ n ih =>
    intro l hl
    cases l with
    | nil => simp [chunkGo]
    | cons a t =>
      have hd : ((a :: t).drop s).length ≤ n := by
        simp only [List.length_drop, List.length_cons]
        simp only [List.length_cons] at hl
        omega
      simp only [chunkGo, List.flatten_cons, ih _ hd]
      exact List.take_append_drop s (a :: t)

theorem chunkGo_length (s : Nat) (hs : s ≠ 0) :
    ∀ (fuel : Nat) (l : List Nat), l.length ≤ fuel →
      (chunkGo s fuel l).length = (l.length + s - 1) / s := by
  intro fuel
  induction fuel with
  | zero =>
    intro l hl
    have : l = [] := List.eq_nil_of_length_eq_zero (Nat.le_zero.mp hl)
    subst this
    simp [chunkGo]
    exact (Nat.div_eq_of_lt (by omega)).symm
  | succ n ih =>
    intro l hl
    cases l with
    | nil =>
      simp [chunkGo]
      exact (Nat.div_eq_of_lt (by omega)).symm
    | cons a t =>
      have hd : ((a :: t).drop s).length ≤ n := by
        simp only [List.length_drop, List.length_cons]
        simp only [List.length_cons] at hl
        omega
      have hpos : 0 < s := Nat.pos_of_ne_zero hs
      simp only [chunkGo, List.length_cons, ih _ hd, List.length_drop]
      rw [show (t.length + 1) + s - 1 = (t.length + 1 - 1) + s from by omega,
        Nat.add_div_right _ hpos]
      have : (t.length + 1 - s + s - 1) / s = (t.length + 1 - 1) / s := by
        rcases le_or_lt (t.length + 1) s with hle | hlt
        · rw [show t.length + 1 - s + s - 1 = s - 1 from by omega,
            Nat.div_eq_of_lt (by omega), Nat.div_eq_of_lt (by omega)]
        · rw [show t.length + 1 - s + s - 1 = t.length + 1 - 1 from by omega]
      omega

theorem chunkList_flatten (s : Nat) (hs : s ≠ 0) (l : List Nat) :
    (chunkList s l).flatten = l := by
  rw [chunkList, if_neg hs]
  exact chunkGo_flatten s hs l.length l (Nat.le_refl _)

theorem chunkList_length (s : Nat) (hs : s ≠ 0) (l : List Nat) :
    (chunkList s l).length = (l.length + s - 1) / s := by
  rw [chunkList, if_neg hs]
  exact chunkGo_length s hs l.length l (Nat.le_refl _)

theorem chunkList_ne_nil (s : Nat) (hs : s ≠ 0) (l : List Nat) (hl : l ≠ []) :
    chunkList s l ≠ [] := by
  rw [chunkList, if_neg hs]
  cases l with
  | nil => exact absurd rfl hl
  | cons a t => simp [chunkGo]

/-- Claim C4: every inbound result-generated event received before a terminal
event is forwarded to the result sink in arrival order, with no deduplication
or filtering: when the stream is a terminal-free prefix followed by
task-finished, the sink receives exactly the handled payloads of that prefix,
in order, and the session ends in success. -/
theorem C4_results_forwarded_in_order (cl : CloseMode)
    (msgs : List (Option InEvent)) (h : noTerminal msgs = true) :
    receive_messages cl (msgs ++ [some InEvent.taskFinished]) =
      (forwarded msgs, RecvOutcome.finished) := by
  rw [receive_append cl msgs _ h]
  simp [receive_messages]

/-- Witness for C4: the scripted session task-started, three result-generated
events (two partial, one final), then task-finished surfaces exactly those
three results in arrival order and finishes successfully. -/
theorem C4_witness :
    noTerminal
      [some InEvent.taskStarted,
       some (InEvent.resultGenerated ⟨some ⟨"he", false, 0, 400⟩, []⟩),
       some (InEvent.resultGenerated ⟨some ⟨"hello", false, 0, 700⟩, []⟩),
       some (InEvent.resultGenerated ⟨some ⟨"hello world", true, 0, 1200⟩,
         [⟨"de", "hallo Welt", true, 0, 1200⟩]⟩)] = true ∧
    receive_messages CloseMode.clean
      ([some InEvent.taskStarted,
        some (InEvent.resultGenerated ⟨some ⟨"he", false, 0, 400⟩, []⟩),
        some (InEvent.resultGenerated ⟨some ⟨"hello", false, 0, 700⟩, []⟩),
        some (InEvent.resultGenerated ⟨some ⟨"hello world", true, 0, 1200⟩,
          [⟨"de", "hallo Welt", true, 0, 1200⟩]⟩)] ++
        [some InEvent.taskFinished]) =
      ([SinkItem.recognition "he" false 0 400,
        SinkItem.recognition "hello" false 0 700,
        SinkItem.recognition "hello world" true 0 1200,
        SinkItem.translation "de" "hallo Welt" true 0 1200],
       RecvOutcome.finished) := by
  refine ⟨by decide, ?_⟩
  rw [C4_results_forwarded_in_order CloseMode.clean _ (by decide)]
  decide

/-- Claim C5: a task-failed event terminates the receive loop (messages after
it are not consumed), and the session outcome is the typed failure carrying
the server error code verbatim, never success. -/
theorem C5_task_failed_surfaced (cl : CloseMode)
    (pre rest : List (Option InEvent)) (code msg : String)
    (h : noTerminal pre = true) :
    receive_messages cl (pre ++ some (InEvent.taskFailed code msg) :: rest) =
      (forwarded pre, RecvOutcome.failed code msg) ∧
    RecvOutcome.failed code msg ≠ RecvOutcome.finished := by
  constructor
  · rw [receive_append cl pre _ h]
    simp [receive_messages]
  · intro hc
    cases hc

/-- Witness for C5: a server that fails the task with error code
TOO_LONG_SPEECH after task-started yields exactly that failure. -/
theorem C5_witness :
    receive_messages CloseMode.clean
      ([some InEvent.taskStarted] ++
        some (InEvent.taskFailed "TOO_LONG_SPEECH" "audio is too long") :: []) =
      (forwarded [some InEvent.taskStarted],
        RecvOutcome.failed "TOO_LONG_SPEECH" "audio is too long") ∧
    RecvOutcome.failed "TOO_LONG_SPEECH" "audio is too long" ≠
      RecvOutcome.finished :=
  C5_task_failed_surfaced CloseMode.clean [some InEvent.taskStarted] []
    "TOO_LONG_SPEECH" "audio is too long" (by decide)

/-- Claim C6: if the connection closes (abnormal closure raising
ConnectionClosed, caught by the loop) before any terminal event arrived, the
loop terminates with the connection-closed outcome — not success. -/
theorem C6_premature_close (msgs : List (Option InEvent))
    (h : noTerminal msgs = true) :
    receive_messages CloseMode.aborted msgs =
      (forwarded msgs, RecvOutcome.connectionClosed) ∧
    RecvOutcome.connectionClosed ≠ RecvOutcome.finished := by
  constructor
  · simpa [endOutcome] using receive_noTerminal CloseMode.aborted msgs h
  · intro hc
    cases hc

/-- Witness for C6: a stream with one partial result and no terminal event
that aborts yields the connection-closed outcome. -/
theorem C6_witness :
    receive_messages CloseMode.aborted
      [some InEvent.taskStarted,
       some (InEvent.resultGenerated ⟨some ⟨"hi", false, 0, 300⟩, []⟩)] =
      (forwarded
        [some InEvent.taskStarted,
         some (InEvent.resultGenerated ⟨some ⟨"hi", false, 0, 300⟩, []⟩)],
        RecvOutcome.connectionClosed) ∧
    RecvOutcome.connectionClosed ≠ RecvOutcome.finished :=
  C6_premature_close
    [some InEvent.taskStarted,
     some (InEvent.resultGenerated ⟨some ⟨"hi", false, 0, 300⟩, []⟩)]
    (by decide)

/-- An exception raised by the loop body on a message that decodes as JSON
but is not a well-formed event: attribute access on a non-dict raises
AttributeError, iterating a non-iterable raises TypeError.  Neither is caught
by the inner except (json.JSONDecodeError only) nor the outer one
(ConnectionClosed only), so it propagates and kills the receive loop. -/
inductive PyError where
  | attributeError : PyError
  | typeError : PyError
deriving DecidableEq

/-- Python `x.get(key, default)`: defined on dicts only; on any other value
the attribute lookup raises AttributeError. -/
def pyGet (j : Json) (key : String) (dflt : Json) : Except PyError Json :=
  match j with
  | .obj fields =>
    match lookupField fields key with
    | some v => .ok v
    | none => .ok dflt
  | _ => .error .attributeError

/-- Python truthiness of a JSON value (`if transcription:`). -/
def Json.truthy : Json → Bool
  | .null => false
  | .bool b => b
  | .num n => n != 0
  | .str s => s != ""
  | .arr [] => false
  | .arr (_ :: _) => true
  | .obj [] => false
  | .obj (_ :: _) => true

/-- Python `for x in j`: lists iterate elements, dicts iterate keys, strings
iterate one-character strings; anything else raises TypeError. -/
def pyIter : Json → Except PyError (List Json)
  | .arr xs => .ok xs
  | .obj fields => .ok (fields.map (fun kv => Json.str kv.1))
  | .str s => .ok (s.toList.map (fun ch => Json.str (String.singleton ch)))
  | _ => .error .typeError

/-- A sink emission of `_handle_result` at the raw-JSON level: the printed
field values are whatever JSON the message carried. -/
inductive RawSinkItem where
  | recognition (text sentence_end begin_time end_time : Json) : RawSinkItem
  | translation (lang text sentence_end begin_time end_time : Json) : RawSinkItem

/-- One iteration of the translation loop of `_handle_result` on a raw JSON
element: five `.get` calls with defaults, each an AttributeError on a
non-dict element. -/
def handle_translation_raw (t : Json) : Except PyError RawSinkItem := do
  let lang ← pyGet t "lang" (.str "")
  let text ← pyGet t "text" (.str "")
  let se ← pyGet t "sentence_end" (.bool false)
  let bt ← pyGet t "begin_time" (.num 0)
  let et ← pyGet t "end_time" (.num 0)
  return .translation lang text se bt et

/-- `_handle_result` on the raw decoded JSON event: payload/output lookups,
the truthiness-gated transcription block, then the translation loop.  A raised
exception aborts the call; emissions of an aborted call are not recorded. -/
def handle_result_raw (event : Json) : Except PyError (List RawSinkItem) := do
  let payload ← pyGet event "payload" (.obj [])
  let output ← pyGet payload "output" (.obj [])
  let transcription ← pyGet output "transcription" (.obj [])
  let recog ←
    if transcription.truthy then do
      let text ← pyGet transcription "text" (.str "")
      let se ← pyGet transcription "sentence_end" (.bool false)
      let bt ← pyGet transcription "begin_time" (.num 0)
      let et ← pyGet transcription "end_time" (.num 0)
      pure [RawSinkItem.recognition text se bt et]
    else pure []
  let translations ← pyGet output "translations" (.arr [])
  let ts ← pyIter translations
  let items ← ts.mapM handle_translation_raw
  return recog ++ items

/-- An inbound text frame, before decoding: either json.loads rejects it
(JSONDecodeError, caught and skipped) or it decodes to some JSON value. -/
inductive RawMsg where
  | undecodable : RawMsg
  | decoded (event : Json) : RawMsg

/-- Terminal outcome of the receive loop at the raw-JSON level; `uncaught`
is an exception that escaped both except clauses and killed the loop. -/
inductive RawOutcome where
  | finished : RawOutcome
  | failed (error_code error_message : Json) : RawOutcome
  | streamEnded : RawOutcome
  | connectionClosed : RawOutcome
  | uncaught (e : PyError) : RawOutcome

/-- Outcome when the raw stream ends without a terminal event. -/
def rawEndOutcome : CloseMode → RawOutcome
  | .clean => .streamEnded
  | .aborted => .connectionClosed

/-- Effect of one loop iteration on one decoded message. -/
inductive StepResult where
  | skip : StepResult
  | emit (items : List RawSinkItem) : StepResult
  | stop (o : RawOutcome) : StepResult

/-- The body of the receive loop on one decoded JSON value, following lines
204-230 of the source: `event.get("header", {}).get("event")` (AttributeError
on a non-dict event or header), the event-tag dispatch, `_handle_result` for
result-generated, and the error_code/error_message extraction for
task-failed (the header is a dict whenever that branch is reached). -/
def receive_step (event : Json) : StepResult :=
  match pyGet event "header" (.obj []) with
  | .error e => .stop (.uncaught e)
  | .ok hdr =>
    match pyGet hdr "event" .null with
    | .error e => .stop (.uncaught e)
    | .ok (.str s) =>
      if s = "task-started" then .skip
      else if s = "result-generated" then
        match handle_result_raw event with
        | .error e => .stop (.uncaught e)
        | .ok items => .emit items
      else if s = "task-finished" then .stop .finished
      else if s = "task-failed" then
        match pyGet hdr "error_code" (.str "UNKNOWN"),
            pyGet hdr "error_message" (.str "") with
        | .ok code, .ok msg => .stop (.failed code msg)
        | .error e, _ => .stop (.uncaught e)
        | .ok _, .error e => .stop (.uncaught e)
      else .skip
    | .ok _ => .skip

/-- The receive loop at the raw-JSON level: undecodable messages hit the
json.JSONDecodeError handler and are skipped; decoded messages run
`receive_step`, which can continue, emit sink items, break on a terminal
event, or die on an uncaught exception (consuming no further messages). -/
def receive_messages_raw (cl : CloseMode) :
    List RawMsg → List RawSinkItem × RawOutcome
  | [] => ([], rawEndOutcome cl)
  | .undecodable :: rest => receive_messages_raw cl rest
  | .decoded event :: rest =>
    match receive_step event with
    | .skip => receive_messages_raw cl rest
    | .emit items =>
      let r := receive_messages_raw cl rest
      (items ++ r.1, r.2)
    | .stop o => ([], o)

/-- Counterexample to C7 as stated: the inbound text `[]` is malformed (it is
not decodable as a structured event), but json.loads accepts it and
`event.get("header", {})` then raises AttributeError, which neither except
clause catches: the loop terminates at once — the following well-formed
task-finished message is never consumed and the outcome is the uncaught
exception, not success. -/
theorem C7_counterexample :
    receive_messages_raw CloseMode.clean
      [RawMsg.decoded (Json.arr []),
       RawMsg.decoded (Json.obj
         [("header", Json.obj [("event", Json.str "task-finished")])])] =
      ([], RawOutcome.uncaught PyError.attributeError) ∧
    RawOutcome.uncaught PyError.attributeError ≠ RawOutcome.finished := by
  constructor
  · rfl
  · intro h
    cases h

/-- Claim C7 amended: only a message that json.loads rejects is logged and
skipped, with the loop continuing over the remaining messages exactly as if
it were absent; a message that decodes as JSON but not as a structured event
(any non-object, such as a JSON array or number) instead raises an uncaught
AttributeError that terminates the receive loop. -/
theorem C7_amended :
    (∀ (cl : CloseMode) (pre post : List RawMsg),
      receive_messages_raw cl (pre ++ RawMsg.undecodable :: post) =
        receive_messages_raw cl (pre ++ post)) ∧
    (∀ (cl : CloseMode) (j : Json) (rest : List RawMsg),
      (∀ fields, j ≠ Json.obj fields) →
      receive_messages_raw cl (RawMsg.decoded j :: rest) =
        ([], RawOutcome.uncaught PyError.attributeError)) := by
  constructor
  · intro cl pre post
    induction pre with
    | nil => simp [receive_messages_raw]
    | cons m pre ih =>
      cases m with
      | undecodable => simpa [receive_messages_raw] using ih
      | decoded event =>
        cases hstep : receive_step event with
        | skip => simpa [receive_messages_raw, hstep] using ih
        | emit items => simp [receive_messages_raw, hstep, ih]
        | stop o => simp [receive_messages_raw, hstep]
  · intro cl j rest hj
    cases j with
    | obj fields => exact absurd rfl (hj fields)
    | null => rfl
    | bool b => rfl
    | num n => rfl
    | str s => rfl
    | arr xs => rfl

/-- Witness for C7 (amended): dropping an undecodable message from a concrete
stream leaves the run unchanged, and the decodable non-event message `5`
kills the loop with an uncaught AttributeError. -/
theorem C7_witness :
    receive_messages_raw CloseMode.clean
      ([RawMsg.decoded (Json.obj
          [("header", Json.obj [("event", Json.str "task-started")])])] ++
        RawMsg.undecodable ::
          [RawMsg.decoded (Json.obj
            [("header", Json.obj [("event", Json.str "task-finished")])])]) =
      receive_messages_raw CloseMode.clean
        ([RawMsg.decoded (Json.obj
            [("header", Json.obj [("event", Json.str "task-started")])])] ++
          [RawMsg.decoded (Json.obj
            [("header", Json.obj [("event", Json.str "task-finished")])])]) ∧
    receive_messages_raw CloseMode.clean [RawMsg.decoded (Json.num 5)] =
      ([], RawOutcome.uncaught PyError.attributeError) :=
  ⟨C7_amended.1 CloseMode.clean
      [RawMsg.decoded (Json.obj
        [("header", Json.obj [("event", Json.str "task-started")])])]
      [RawMsg.decoded (Json.obj
        [("header", Json.obj [("event", Json.str "task-finished")])])],
   C7_amended.2 CloseMode.clean (Json.num 5) []
      (fun _ h => Json.noConfusion h)⟩

/-- Claim C10: a path naming no existing file makes send_audio_data raise
FileNotFoundError before any bytes are read or any frame is written: the
result carries the error and an empty frame log. -/
theorem C10_missing_file (fs : String → Option AudioFile) (path : String)
    (chunk_size : Nat) (h : fs path = none) :
    send_audio_data fs path chunk_size = ⟨[], some AudioError.fileNotFound⟩ := by
  simp [send_audio_data, h]

/-- Witness for C10: an empty filesystem. -/
theorem C10_witness :
    (fun _ : String => (none : Option AudioFile)) "missing.wav" = none ∧
    send_audio_data (fun _ => none) "missing.wav" 3200 =
      ⟨[], some AudioError.fileNotFound⟩ :=
  ⟨rfl, C10_missing_file (fun _ => none) "missing.wav" 3200 rfl⟩

/-- The condition of claim C2, rendered from the spec wording: the total
duration of the source, computed from its byte length and its ACTUAL sample
rate, sample width and channel count, exceeds 60 seconds
(bytes / (rate * width * channels) > 60, written multiplicatively). -/
def specActualDurationOver60
    (sample_rate sample_width channels byte_len : Nat) : Prop :=
  60 * (sample_rate * sample_width * channels) < byte_len

theorem send_audio_data_pcm_ok (fs : String → Option AudioFile) (path : String)
    (C : Nat) (data : List Nat) (hfs : fs path = some (AudioFile.pcm data))
    (h : data.length ≤ 60 * (16000 * 2)) :
    send_audio_data fs path C = ⟨chunkList C data, none⟩ := by
  simp [send_audio_data, hfs, not_lt.mpr h]

theorem send_audio_data_pcm_frames (fs : String → Option AudioFile)
    (path : String) (C : Nat) (data : List Nat)
    (hfs : fs path = some (AudioFile.pcm data))
    (h : data.length ≤ 60 * (16000 * 2)) :
    (send_audio_data fs path C).frames = chunkList C data := by
  rw [send_audio_data_pcm_ok fs path C data hfs h]

theorem send_audio_data_pcm_error (fs : String → Option AudioFile)
    (path : String) (C : Nat) (data : List Nat)
    (hfs : fs path = some (AudioFile.pcm data))
    (h : data.length ≤ 60 * (16000 * 2)) :
    (send_audio_data fs path C).error = none := by
  rw [send_audio_data_pcm_ok fs path C data hfs h]

/-- Counterexample to C2 as stated: a raw PCM source of 960001 bytes whose
actual parameters are 8000 Hz, 16-bit mono lasts just over 60 seconds, but the
raw-PCM duration check assumes 16 kHz 16-bit mono, computes about 30 s, and
streams the audio: no error is raised and at least one frame is transmitted. -/
theorem C2_counterexample :
    specActualDurationOver60 8000 2 1 (List.replicate 960001 0).length ∧
    (send_audio_data (fun _ => some (AudioFile.pcm (List.replicate 960001 0)))
      "a.pcm" 3200).error = none ∧
    (send_audio_data (fun _ => some (AudioFile.pcm (List.replicate 960001 0)))
      "a.pcm" 3200).frames ≠ [] := by
  have hlen : (List.replicate 960001 (0 : Nat)).length = 960001 :=
    List.length_replicate 960001 0
  have hle : (List.replicate 960001 (0 : Nat)).length ≤ 60 * (16000 * 2) := by
    rw [hlen]
    norm_num
  refine ⟨?_, ?_, ?_⟩
  · show 60 * (8000 * 2 * 1) < (List.replicate 960001 (0 : Nat)).length
    rw [hlen]
    norm_num
  · exact send_audio_data_pcm_error _ _ 3200 _ rfl hle
  · rw [send_audio_data_pcm_frames _ _ 3200 _ rfl hle]
    refine chunkList_ne_nil 3200 (by norm_num) _ ?_
    intro he
    rw [he] at hlen
    simp at hlen

/-- Claim C2 amended: the pre-transmission 60-second check uses the actual
header parameters for WAV sources, but ASSUMED 16 kHz 16-bit mono parameters
for raw PCM sources.  A WAV source whose header duration exceeds 60 s, and a
raw PCM source whose assumed duration exceeds 60 s, fail with the duration
error before any frame is transmitted; a raw PCM source whose actual
parameters differ from the assumption may be streamed even when its actual
duration exceeds 60 s. -/
theorem C2_amended :
    (∀ (fs : String → Option AudioFile) (path : String) (chunk_size : Nat)
        (channels sample_width framerate : Nat) (data : List Nat),
      fs path = some (AudioFile.wav channels sample_width framerate data) →
      60 * framerate < data.length / (sample_width * channels) →
      send_audio_data fs path chunk_size =
        ⟨[], some AudioError.durationExceeded⟩) ∧
    (∀ (fs : String → Option AudioFile) (path : String) (chunk_size : Nat)
        (data : List Nat),
      fs path = some (AudioFile.pcm data) →
      60 * (16000 * 2) < data.length →
      send_audio_data fs path chunk_size =
        ⟨[], some AudioError.durationExceeded⟩) := by
  constructor
  · intro fs path chunk_size channels sample_width framerate data hfs hd
    simp [send_audio_data, hfs, hd]
  · intro fs path chunk_size data hfs hd
    simp [send_audio_data, hfs, hd]

/-- Witness for C2 (amended): a 60.00025-second 8 kHz 16-bit mono WAV file and
a just-over-60-second assumed-parameter raw PCM file are both rejected before
any frame goes out. -/
theorem C2_witness :
    send_audio_data
      (fun _ => some (AudioFile.wav 1 2 8000 (List.replicate 960002 0)))
      "a.wav" 3200 = ⟨[], some AudioError.durationExceeded⟩ ∧
    send_audio_data (fun _ => some (AudioFile.pcm (List.replicate 1920001 0)))
      "a.pcm" 3200 = ⟨[], some AudioError.durationExceeded⟩ :=
  ⟨C2_amended.1 _ "a.wav" 3200 1 2 8000 (List.replicate 960002 0) rfl
      (by rw [List.length_replicate]; norm_num),
   C2_amended.2 _ "a.pcm" 3200 (List.replicate 1920001 0) rfl
      (by rw [List.length_replicate]; norm_num)⟩

/-- Counterexample to C3 as stated: a WAV source with 3 channels at 16 bits
(6 bytes per frame) holding 24 data bytes, streamed with chunk_size 8: the
loop sends 8 // 6 = 1 frame (6 bytes) per chunk, so 4 frames go out, not
ceil(24/8) = 3. -/
theorem C3_counterexample :
    ¬ (((send_audio_data
          (fun _ => some (AudioFile.wav 3 2 16000 (List.replicate 24 0)))
          "a.wav" 8).frames.length = (24 + 8 - 1) / 8) ∧
        ((send_audio_data
          (fun _ => some (AudioFile.wav 3 2 16000 (List.replicate 24 0)))
          "a.wav" 8).frames.flatten = List.replicate 24 0)) := by
  decide

/-- Claim C3 amended: on the raw-PCM path, with a positive chunk size C and
the duration check passing, the client sends exactly ceil(N/C) frames whose
concatenation is the original byte sequence.  On the WAV path the chunk size
is first rounded down to a whole number of frames, s = (C / bpf) * bpf bytes
with bpf = sample_width * channels; when 0 < bpf ≤ C and the duration check
passes, the client sends exactly ceil(N/s) frames whose concatenation is the
original byte sequence. -/
theorem C3_amended :
    (∀ (data : List Nat) (path : String) (C : Nat), C ≠ 0 →
      data.length ≤ 60 * (16000 * 2) →
      (send_audio_data (fun _ => some (AudioFile.pcm data)) path C).frames.length
          = (data.length + C - 1) / C ∧
      (send_audio_data (fun _ => some (AudioFile.pcm data)) path C).frames.flatten
          = data) ∧
    (∀ (channels sample_width framerate : Nat) (data : List Nat)
        (path : String) (C : Nat),
      0 < sample_width * channels → sample_width * channels ≤ C →
      data.length / (sample_width * channels) ≤ 60 * framerate →
      ((send_audio_data
          (fun _ => some (AudioFile.wav channels sample_width framerate data))
          path C).frames.length
        = (data.length + (C / (sample_width * channels)) * (sample_width * channels) - 1)
            / ((C / (sample_width * channels)) * (sample_width * channels))) ∧
      (send_audio_data
          (fun _ => some (AudioFile.wav channels sample_width framerate data))
          path C).frames.flatten = data) := by
  constructor
  · intro data path C hC hlen
    have hnot : ¬ (60 * (16000 * 2) < data.length) := not_lt.mpr hlen
    constructor
    · simp [send_audio_data, hnot, chunkList_length C hC]
    · simp [send_audio_data, hnot, chunkList_flatten C hC]
  · intro channels sample_width framerate data path C hbpf hle hdur
    have hs : (C / (sample_width * channels)) * (sample_width * channels) ≠ 0 := by
      have h1 : 1 ≤ C / (sample_width * channels) :=
        (Nat.one_le_div_iff hbpf).mpr hle
      have : 0 < (C / (sample_width * channels)) * (sample_width * channels) :=
        Nat.mul_pos h1 hbpf
      omega
    have hnot : ¬ (60 * framerate < data.length / (sample_width * channels)) :=
      not_lt.mpr hdur
    constructor
    · simp [send_audio_data, hnot, chunkList_length _ hs]
    · simp [send_audio_data, hnot, chunkList_flatten _ hs]

/-- Witness for C3 (amended): a 5-byte raw PCM source with chunk size 2 yields
3 frames reassembling the source; a 10-byte 16 kHz 16-bit mono WAV source with
chunk size 4 yields 3 frames reassembling the source. -/
theorem C3_witness :
    ((send_audio_data (fun _ => some (AudioFile.pcm [1, 2, 3, 4, 5]))
        "a.pcm" 2).frames.length = (5 + 2 - 1) / 2 ∧
      (send_audio_data (fun _ => some (AudioFile.pcm [1, 2, 3, 4, 5]))
        "a.pcm" 2).frames.flatten = [1, 2, 3, 4, 5]) ∧
    ((send_audio_data
        (fun _ => some (AudioFile.wav 1 2 16000 [1, 2, 3, 4, 5, 6, 7, 8, 9, 10]))
        "a.wav" 4).frames.length
        = (10 + (4 / (2 * 1)) * (2 * 1) - 1) / ((4 / (2 * 1)) * (2 * 1)) ∧
      (send_audio_data
        (fun _ => some (AudioFile.wav 1 2 16000 [1, 2, 3, 4, 5, 6, 7, 8, 9, 10]))
        "a.wav" 4).frames.flatten = [1, 2, 3, 4, 5, 6, 7, 8, 9, 10]) :=
  ⟨C3_amended.1 [1, 2, 3, 4, 5] "a.pcm" 2 (by decide) (by decide),
   C3_amended.2 1 2 16000 [1, 2, 3, 4, 5, 6, 7, 8, 9, 10] "a.wav" 4
     (by decide) (by decide) (by decide)⟩

theorem isRunTask_runmsg (tid : String) (p : RunTaskParams) :
    (OutMsg.control (send_run_task_message tid p)).isRunTask = true := rfl

theorem isRunTask_finmsg (tid : String) :
    (OutMsg.control (send_finish_task_message tid)).isRunTask = false := rfl

theorem isRunTask_audio (b : List Nat) :
    (OutMsg.audio b).isRunTask = false := rfl

theorem isFinishTask_runmsg (tid : String) (p : RunTaskParams) :
    (OutMsg.control (send_run_task_message tid p)).isFinishTask = false := rfl

theorem isFinishTask_finmsg (tid : String) :
    (OutMsg.control (send_finish_task_message tid)).isFinishTask = true := rfl

theorem isFinishTask_audio (b : List Nat) :
    (OutMsg.audio b).isFinishTask = false := rfl

theorem isAudio_control (j : Json) : (OutMsg.control j).isAudio = false := rfl

theorem isAudio_audio (b : List Nat) : (OutMsg.audio b).isAudio = true := rfl

/-- Claim C8: for every configuration, the run-task control message carries
header task_id/action run-task/streaming duplex and the documented payload
layout (task_group audio, task asr, function recognition, the model name, the
input block with format, sample_rate, audio_type sentence and the translation
language pair, and the parameters block), and the finish-task message carries
header task_id/action finish-task/streaming duplex with payload input {}. -/
theorem C8_message_shapes (taskId : String) (p : RunTaskParams) :
    (send_run_task_message taskId p).getPath ["header", "task_id"]
        = some (.str taskId) ∧
    (send_run_task_message taskId p).getPath ["header", "action"]
        = some (.str "run-task") ∧
    (send_run_task_message taskId p).getPath ["header", "streaming"]
        = some (.str "duplex") ∧
    (send_run_task_message taskId p).getPath ["payload", "task_group"]
        = some (.str "audio") ∧
    (send_run_task_message taskId p).getPath ["payload", "task"]
        = some (.str "asr") ∧
    (send_run_task_message taskId p).getPath ["payload", "function"]
        = some (.str "recognition") ∧
    (send_run_task_message taskId p).getPath ["payload", "model"]
        = some (.str "gummy-realtime-v1") ∧
    (send_run_task_message taskId p).getPath ["payload", "input", "format"]
        = some (.str p.format) ∧
    (send_run_task_message taskId p).getPath ["payload", "input", "sample_rate"]
        = some (.num p.sample_rate) ∧
    (send_run_task_message taskId p).getPath ["payload", "input", "audio_type"]
        = some (.str "sentence") ∧
    (send_run_task_message taskId p).getPath
        ["payload", "input", "translation", "target_lang"]
        = some (.str p.target_lang) ∧
    (send_run_task_message taskId p).getPath
        ["payload", "input", "translation", "source_lang"]
        = some (.str p.source_lang) ∧
    (send_run_task_message taskId p).getPath
        ["payload", "parameters", "max_end_silence"]
        = some (.num p.max_end_silence) ∧
    (send_run_task_message taskId p).getPath
        ["payload", "parameters", "enable_inverse_text_normalization"]
        = some (.bool p.enable_inverse_text_normalization) ∧
    (send_finish_task_message taskId).getPath ["header", "task_id"]
        = some (.str taskId) ∧
    (send_finish_task_message taskId).getPath ["header", "action"]
        = some (.str "finish-task") ∧
    (send_finish_task_message taskId).getPath ["header", "streaming"]
        = some (.str "duplex") ∧
    (send_finish_task_message taskId).getPath ["payload", "input"]
        = some (.obj []) :=
  ⟨rfl, rfl, rfl, rfl, rfl, rfl, rfl, rfl, rfl, rfl, rfl, rfl, rfl, rfl,
   rfl, rfl, rfl, rfl⟩

/-- Claim C9: the task identifier fixed at construction is carried unchanged
by every control message of the session: each text frame in the outbound log
has header.task_id equal to the uuid stored by the constructor. -/
theorem C9_task_id_stable (apiKey taskUuid : String) (p : RunTaskParams)
    (fs : String → Option AudioFile) (path : String) (chunk_size : Nat) :
    ∀ m ∈ test_with_audio_file_log (GummyWebSocketClient.init apiKey taskUuid)
        p fs path chunk_size,
      ∀ j : Json, m = OutMsg.control j →
        j.getPath ["header", "task_id"] = some (.str taskUuid) := by
  intro m hm j hj
  rcases hsr : send_audio_data fs path chunk_size with ⟨frames, err⟩
  cases err with
  | none =>
    simp only [test_with_audio_file_log, hsr] at hm
    rcases List.mem_cons.mp hm with hm1 | hm2
    · subst hj
      cases hm1
      rfl
    · rcases List.mem_append.mp hm2 with hm3 | hm4
      · rcases List.mem_map.mp hm3 with ⟨b, _, hb⟩
        rw [hj] at hb
        cases hb
      · subst hj
        cases List.mem_singleton.mp hm4
        rfl
  | some e =>
    simp only [test_with_audio_file_log, hsr] at hm
    rcases List.mem_cons.mp hm with hm1 | hm2
    · subst hj
      cases hm1
      rfl
    · rcases List.mem_map.mp hm2 with ⟨b, _, hb⟩
      rw [hj] at hb
      cases hb

/-- Witness for C9: in a tiny concrete session both control messages carry the
constructor uuid. -/
theorem C9_witness :
    OutMsg.control (send_run_task_message "uuid-1234" {}) ∈
      test_with_audio_file_log (GummyWebSocketClient.init "key" "uuid-1234") {}
        (fun _ => some (AudioFile.pcm [1, 2])) "a.pcm" 2 ∧
    (send_run_task_message "uuid-1234" {}).getPath ["header", "task_id"]
      = some (.str "uuid-1234") := by
  have hlog : test_with_audio_file_log (GummyWebSocketClient.init "key" "uuid-1234")
      {} (fun _ => some (AudioFile.pcm [1, 2])) "a.pcm" 2 =
      [OutMsg.control (send_run_task_message "uuid-1234" {}),
       OutMsg.audio [1, 2],
       OutMsg.control (send_finish_task_message "uuid-1234")] := rfl
  have hmem : OutMsg.control (send_run_task_message "uuid-1234" {}) ∈
      test_with_audio_file_log (GummyWebSocketClient.init "key" "uuid-1234") {}
        (fun _ => some (AudioFile.pcm [1, 2])) "a.pcm" 2 := by
    rw [hlog]
    exact List.mem_cons_self _ _
  exact ⟨hmem,
    C9_task_id_stable "key" "uuid-1234" {} (fun _ => some (AudioFile.pcm [1, 2]))
      "a.pcm" 2 _ hmem (send_run_task_message "uuid-1234" {}) rfl⟩

/-- Claim C1: for a session whose configuration is valid (the audio send
raises no error), the ordered outbound log contains the run-task control
message exactly once and strictly before every binary audio frame, and the
finish-task control message exactly once and strictly after every binary
audio frame. -/
theorem C1_control_sequencing (c : GummyWebSocketClient) (p : RunTaskParams)
    (fs : String → Option AudioFile) (path : String) (chunk_size : Nat)
    (h : (send_audio_data fs path chunk_size).error = none) :
    ((test_with_audio_file_log c p fs path chunk_size).countP
        (fun m => m.isRunTask) = 1) ∧
    ((test_with_audio_file_log c p fs path chunk_size).countP
        (fun m => m.isFinishTask) = 1) ∧
    (∀ (i j : Nat)
        (hi : i < (test_with_audio_file_log c p fs path chunk_size).length)
        (hj : j < (test_with_audio_file_log c p fs path chunk_size).length),
      ((test_with_audio_file_log c p fs path chunk_size).get ⟨i, hi⟩).isRunTask
          = true →
      ((test_with_audio_file_log c p fs path chunk_size).get ⟨j, hj⟩).isAudio
          = true →
      i < j) ∧
    (∀ (i j : Nat)
        (hi : i < (test_with_audio_file_log c p fs path chunk_size).length)
        (hj : j < (test_with_audio_file_log c p fs path chunk_size).length),
      ((test_with_audio_file_log c p fs path chunk_size).get ⟨i, hi⟩).isFinishTask
          = true →
      ((test_with_audio_file_log c p fs path chunk_size).get ⟨j, hj⟩).isAudio
          = true →
      j < i) := by
  rcases hsr : send_audio_data fs path chunk_size with ⟨frames, err⟩
  rw [hsr] at h
  simp only at h
  subst h
  have hlog : test_with_audio_file_log c p fs path chunk_size =
      OutMsg.control (send_run_task_message c.task_id p) ::
        (frames.map OutMsg.audio ++
          [OutMsg.control (send_finish_task_message c.task_id)]) := by
    simp only [test_with_audio_file_log, hsr]
  have hmap_run : (frames.map OutMsg.audio).countP (fun m => m.isRunTask) = 0 := by
    refine List.countP_eq_zero.mpr ?_
    intro a ha
    rcases List.mem_map.mp ha with ⟨b, _, rfl⟩
    simp [isRunTask_audio]
  have hmap_fin : (frames.map OutMsg.audio).countP (fun m => m.isFinishTask) = 0 := by
    refine List.countP_eq_zero.mpr ?_
    intro a ha
    rcases List.mem_map.mp ha with ⟨b, _, rfl⟩
    simp [isFinishTask_audio]
  rw [hlog]
  refine ⟨?_, ?_, ?_, ?_⟩
  · rw [List.countP_cons, List.countP_append, hmap_run]
    simp [List.countP_cons, isRunTask_runmsg, isRunTask_finmsg]
  · rw [List.countP_cons, List.countP_append, hmap_fin]
    simp [List.countP_cons, isFinishTask_runmsg, isFinishTask_finmsg]
  · intro i j hi hj hrun haud
    have hj0 : j ≠ 0 := by
      intro hj0
      subst hj0
      rw [List.get_eq_getElem, List.getElem_cons_zero, isAudio_control] at haud
      exact Bool.false_ne_true haud
    rcases Nat.eq_zero_or_pos i with hi0 | hip
    · omega
    · exfalso
      obtain ⟨k, rfl⟩ : ∃ k, i = k + 1 := ⟨i - 1, by omega⟩
      rw [List.get_eq_getElem, List.getElem_cons_succ] at hrun
      have hk : k < (frames.map OutMsg.audio ++
          [OutMsg.control (send_finish_task_message c.task_id)]).length := by
        simp only [List.length_cons] at hi
        omega
      have hmem : (frames.map OutMsg.audio ++
          [OutMsg.control (send_finish_task_message c.task_id)])[k] ∈
          frames.map OutMsg.audio ++
            [OutMsg.control (send_finish_task_message c.task_id)] :=
        List.getElem_mem hk
      rcases List.mem_append.mp hmem with hm1 | hm2
      · rcases List.mem_map.mp hm1 with ⟨b, _, hb⟩
        rw [← hb, isRunTask_audio] at hrun
        exact Bool.false_ne_true hrun
      · rw [List.mem_singleton.mp hm2, isRunTask_finmsg] at hrun
        exact Bool.false_ne_true hrun
  · intro i j hi hj hfin haud
    simp only [List.length_cons, List.length_append, List.length_map,
      List.length_nil] at hi hj
    have hi_eq : i = frames.length + 1 := by
      rcases Nat.eq_zero_or_pos i with hi0 | hip
      · exfalso
        subst hi0
        rw [List.get_eq_getElem, List.getElem_cons_zero, isFinishTask_runmsg] at hfin
        exact Bool.false_ne_true hfin
      · obtain ⟨k, rfl⟩ : ∃ k, i = k + 1 := ⟨i - 1, by omega⟩
        rcases Nat.lt_or_ge k (frames.map OutMsg.audio).length with hk1 | hk2
        · exfalso
          rw [List.get_eq_getElem, List.getElem_cons_succ,
            List.getElem_append_left hk1] at hfin
          simp only [List.getElem_map] at hfin
          rw [isFinishTask_audio] at hfin
          exact Bool.false_ne_true hfin
        · rw [List.length_map] at hk2
          omega
    have hj_le : j < frames.length + 1 := by
      rcases Nat.eq_zero_or_pos j with hj0 | hjp
      · omega
      · obtain ⟨m, rfl⟩ : ∃ m, j = m + 1 := ⟨j - 1, by omega⟩
        rcases Nat.lt_or_ge m (frames.map OutMsg.audio).length with hm1 | hm2
        · rw [List.length_map] at hm1
          omega
        · exfalso
          rw [List.get_eq_getElem, List.getElem_cons_succ,
            List.getElem_append_right hm2] at haud
          simp only [List.getElem_singleton] at haud
          rw [isAudio_control] at haud
          exact Bool.false_ne_true haud
    omega

/-- Witness for C1: a concrete valid session over a 3-byte raw PCM source
with chunk size 2. -/
theorem C1_witness :
    (send_audio_data (fun _ => some (AudioFile.pcm [1, 2, 3])) "a.pcm" 2).error
        = none ∧
    (((test_with_audio_file_log (GummyWebSocketClient.init "k" "u") {}
        (fun _ => some (AudioFile.pcm [1, 2, 3])) "a.pcm" 2).countP
        (fun m => m.isRunTask) = 1) ∧
      ((test_with_audio_file_log (GummyWebSocketClient.init "k" "u") {}
        (fun _ => some (AudioFile.pcm [1, 2, 3])) "a.pcm" 2).countP
        (fun m => m.isFinishTask) = 1) ∧
      (∀ (i j : Nat)
          (hi : i < (test_with_audio_file_log (GummyWebSocketClient.init "k" "u") {}
            (fun _ => some (AudioFile.pcm [1, 2, 3])) "a.pcm" 2).length)
          (hj : j < (test_with_audio_file_log (GummyWebSocketClient.init "k" "u") {}
            (fun _ => some (AudioFile.pcm [1, 2, 3])) "a.pcm" 2).length),
        ((test_with_audio_file_log (GummyWebSocketClient.init "k" "u") {}
          (fun _ => some (AudioFile.pcm [1, 2, 3])) "a.pcm" 2).get ⟨i, hi⟩).isRunTask
            = true →
        ((test_with_audio_file_log (GummyWebSocketClient.init "k" "u") {}
          (fun _ => some (AudioFile.pcm [1, 2, 3])) "a.pcm" 2).get ⟨j, hj⟩).isAudio
            = true →
        i < j) ∧
      (∀ (i j : Nat)
          (hi : i < (test_with_audio_file_log (GummyWebSocketClient.init "k" "u") {}
            (fun _ => some (AudioFile.pcm [1, 2, 3])) "a.pcm" 2).length)
          (hj : j < (test_with_audio_file_log (GummyWebSocketClient.init "k" "u") {}
            (fun _ => some (AudioFile.pcm [1, 2, 3])) "a.pcm" 2).length),
        ((test_with_audio_file_log (GummyWebSocketClient.init "k" "u") {}
          (fun _ => some (AudioFile.pcm [1, 2, 3])) "a.pcm" 2).get
            ⟨i, hi⟩).isFinishTask = true →
        ((test_with_audio_file_log (GummyWebSocketClient.init "k" "u") {}
          (fun _ => some (AudioFile.pcm [1, 2, 3])) "a.pcm" 2).get ⟨j, hj⟩).isAudio
            = true →
        j < i)) :=
  ⟨by decide,
    C1_control_sequencing (GummyWebSocketClient.init "k" "u") {}
      (fun _ => some (AudioFile.pcm [1, 2, 3])) "a.pcm" 2 (by decide)⟩
